import Mathlib

/-!
Shallow embedding of the asqio-sdk-web request/response orchestration layer:
the API client (`AsqioClient.request`, `buildQuery`, URL construction, the
`createTicket` body merge), the device fingerprint probe (`detectBrowser`,
`detectOS`, `detectDeviceInfo`) and the `useTopics` synchronization hook.
Each definition mirrors one function of the TypeScript source; theorems
settle the specification claims about them.
-/

/-- Boolean test that `pat` is a prefix of `s` (lists of characters). -/
def beginsWith (pat s : List Char) : Bool :=
  match pat, s with
  | [], _ => true
  | _ :: _, [] => false
  | a :: as, b :: bs => a == b && beginsWith as bs

/-- Boolean test that `pat` occurs as a contiguous substring of `s`,
mirroring the JavaScript regular-expression test `/pat/.test(s)` for a
literal pattern. -/
def containsSub (pat s : List Char) : Bool :=
  match s with
  | [] => beginsWith pat []
  | _ :: rest => beginsWith pat s || containsSub pat rest

/-- Leftmost match of the regular expression `pat([good]+)`: scan `s` left to
right for an occurrence of the literal `pat` followed by at least one
character satisfying `good`, and return the maximal such capture run.
Mirrors `/pat([\d.]+)/.exec(s)` with `RegExp.$1` extraction. -/
def matchCapture (pat : List Char) (good : Char → Bool) : List Char → Option (List Char)
  | [] => none
  | c :: rest =>
    if beginsWith pat (c :: rest) then
      let v := ((c :: rest).drop pat.length).takeWhile good
      if v = [] then matchCapture pat good rest else some v
    else matchCapture pat good rest

/-- Character class `[\d.]` used by the browser and OS version captures. -/
def isDigitDot (c : Char) : Bool := c.isDigit || c == '.'

/-- Character class `[\d_]` used by the macOS and iOS version captures. -/
def isDigitUnderscore (c : Char) : Bool := c.isDigit || c == '_'

/-- Global replacement of underscores by dots, mirroring
`v.replace(/_/g, ".")` in `detectOS`. -/
def underscoreToDot (l : List Char) : List Char :=
  l.map (fun c => if c == '_' then '.' else c)

/-- Embedding of `detectBrowser` from `device-info.ts`: a fixed priority
order Edg, Chrome, Firefox, then Safari (the Safari branch additionally
requires that the substring Chrome is absent), falling back to
`ua || "Unknown"`. -/
def detectBrowser (ua : String) : String :=
  let l := ua.data
  match matchCapture "Edg/".data isDigitDot l with
  | some v => "Edge " ++ String.mk v
  | none =>
  match matchCapture "Chrome/".data isDigitDot l with
  | some v => "Chrome " ++ String.mk v
  | none =>
  match matchCapture "Firefox/".data isDigitDot l with
  | some v => "Firefox " ++ String.mk v
  | none =>
  match matchCapture "Safari/".data isDigitDot l with
  | some v =>
    if containsSub "Chrome".data l then (if ua = "" then "Unknown" else ua)
    else "Safari " ++ String.mk v
  | none => if ua = "" then "Unknown" else ua

/-- Embedding of `detectOS` from `device-info.ts`: Windows, macOS, Android,
iOS, Linux signatures in order, else "Unknown". -/
def detectOS (ua : String) : String :=
  match matchCapture "Windows NT ".data isDigitDot ua.data with
  | some v => "Windows " ++ String.mk v
  | none =>
  match matchCapture "Mac OS X ".data isDigitUnderscore ua.data with
  | some v => "macOS " ++ String.mk (underscoreToDot v)
  | none =>
  match matchCapture "Android ".data isDigitDot ua.data with
  | some v => "Android " ++ String.mk v
  | none =>
  match matchCapture "iPhone OS ".data isDigitUnderscore ua.data with
  | some v => "iOS " ++ String.mk (underscoreToDot v)
  | none =>
  if containsSub "Linux".data ua.data then "Linux" else "Unknown"

/-- Ambient environment signals read by `detectDeviceInfo`: whether a
`navigator` object exists, its user agent and language, and the resolved
time zone from `Intl.DateTimeFormat()`. -/
structure NavigatorEnv where
  hasNavigator : Bool
  userAgent : String
  language : String
  timeZone : String
deriving DecidableEq, Repr

/-- Result record of the device fingerprint probe. -/
structure DeviceInfo where
  platform : String
  os_version : String
  device_model : String
  locale : String
  timezone : String
deriving DecidableEq, Repr

/-- Embedding of `detectDeviceInfo` from `device-info.ts`, parameterized by
the ambient environment signals it reads. -/
def detectDeviceInfo (env : NavigatorEnv) : DeviceInfo :=
  let ua := if env.hasNavigator then env.userAgent else ""
  { platform := "web"
    os_version := detectOS ua
    device_model := detectBrowser ua
    locale := if env.hasNavigator then env.language else "en"
    timezone := env.timeZone }

example : detectBrowser "Chrome/1.2 Edg/3.4" = "Edge 3.4" := by decide
example : detectBrowser "" = "Unknown" := by decide
example : detectBrowser "Mozilla/5.0 AppleWebKit/605.1.15 Version/17.2 Safari/605.1.15" = "Safari 605.1.15" := by decide
example : detectBrowser "Chromebook Safari/605.1" = "Chromebook Safari/605.1" := by decide
example : detectOS "Mozilla/5.0 (Macintosh; Intel Mac OS X 10_15_7)" = "macOS 10.15.7" := by decide

/-- Values a JavaScript computation can throw. A thrown value need not be an
`Error` instance (`str`); it can be a plain `Error` (`jsError`), an
`AsqioError` — the server-rejection failure shape, carrying message, code
and status (`serverRejection`) — or an `AsqioNetworkError` — the transport
failure shape, carrying a message and the wrapped cause (`transportFailure`). -/
inductive Thrown where
  | str (s : String)
  | jsError (name message : String)
  | serverRejection (message code : String) (statusCode : Nat)
  | transportFailure (message : String) (cause : Thrown)
deriving DecidableEq, Repr

/-- True exactly when the thrown value is an `AsqioError` instance, the
server-rejection failure shape of the error taxonomy. -/
def Thrown.isServerRejection : Thrown → Bool
  | .serverRejection _ _ _ => true
  | _ => false

/-- The parsed JSON body of a response, seen through the only two
projections `request` reads from it: the optional `error` and `code`
string fields (`errorBody?.error`, `errorBody?.code`; a missing field, a
null field, a null body or a non-object body all project to `none`). -/
structure ParsedBody where
  errField : Option String
  codeField : Option String
deriving DecidableEq, Repr

/-- Decidable equality for settlement values, used to evaluate the model on
concrete inputs. -/
instance {ε α : Type} [DecidableEq ε] [DecidableEq α] : DecidableEq (Except ε α) := fun a b =>
  match a, b with
  | .ok x, .ok y => if h : x = y then isTrue (by rw [h]) else isFalse (by simp [h])
  | .ok _, .error _ => isFalse (by simp)
  | .error _, .ok _ => isFalse (by simp)
  | .error x, .error y => if h : x = y then isTrue (by rw [h]) else isFalse (by simp [h])

/-- A transport response as `request` consumes it: the `ok` indicator, the
numeric `status`, and the outcome of awaiting its asynchronous JSON-body
reader `response.json()` (which may itself reject). -/
structure Resp where
  ok : Bool
  status : Nat
  jsonResult : Except Thrown ParsedBody
deriving DecidableEq, Repr

/-- Outcome of one `AsqioClient.request` call together with two observation
flags: whether the injected fetch primitive was invoked and whether the
response JSON-body reader was invoked. -/
structure ReqResult where
  outcome : Except Thrown (Option ParsedBody)
  fetchInvoked : Bool
  jsonInvoked : Bool
deriving DecidableEq, Repr

/-- Embedding of the private `AsqioClient.request` control flow, applied to
an environment described by the settlement of `getToken()` and of the
injected `fetch` call. Mirrors the source order: resolve the token (a
rejection becomes an `AsqioNetworkError` with message
"Failed to retrieve auth token" and the fetch primitive is never invoked);
call fetch (a throw becomes an `AsqioNetworkError` with message
"Network request failed"); a 204 status resolves `undefined` (here
`Except.ok none`) without reading the body; a non-ok status reads the body,
ignores any parse rejection, and throws an `AsqioError` built from the
optional `error` and `code` fields with the synthesized message and the
generic INTERNAL_SERVER_ERROR code as fallbacks; otherwise the parsed body
is returned (a rejection of the reader on this path propagates raw). -/
def request (tokenResult : Except Thrown String) (fetchResult : Except Thrown Resp) :
    ReqResult :=
  match tokenResult with
  | .error e => ⟨.error (.transportFailure "Failed to retrieve auth token" e), false, false⟩
  | .ok _ =>
    match fetchResult with
    | .error e => ⟨.error (.transportFailure "Network request failed" e), true, false⟩
    | .ok resp =>
      if resp.status = 204 then ⟨.ok none, true, false⟩
      else if resp.ok then
        match resp.jsonResult with
        | .ok b => ⟨.ok (some b), true, true⟩
        | .error e => ⟨.error e, true, true⟩
      else
        let errorBody : Option ParsedBody :=
          match resp.jsonResult with
          | .ok b => some b
          | .error _ => none
        ⟨.error (.serverRejection
            ((errorBody.bind ParsedBody.errField).getD
              ("Request failed with status " ++ toString resp.status))
            ((errorBody.bind ParsedBody.codeField).getD "INTERNAL_SERVER_ERROR")
            resp.status), true, true⟩

/-- Strip every trailing slash from a string, mirroring
`config.baseUrl.replace(/\/+$/, "")` in the `AsqioClient` constructor. -/
def stripTrailingSlashes (s : String) : String :=
  String.mk ((s.data.reverse.dropWhile (fun c => c == '/')).reverse)

/-- Length of the run of slashes at the end of a string. -/
def trailingSlashRun (s : String) : Nat :=
  (s.data.reverse.takeWhile (fun c => c == '/')).length

/-- Length of the run of slashes at the start of a string. -/
def leadingSlashRun (s : String) : Nat :=
  (s.data.takeWhile (fun c => c == '/')).length

/-- Number of consecutive slashes straddling the junction when `path` is
appended to `base`. -/
def junctionSlashRun (base path : String) : Nat :=
  trailingSlashRun base + leadingSlashRun path

/-- Client configuration: endpoint base, tenant key and optional
application version (the asynchronous token provider is part of the
request environment, not of this static record). -/
structure AsqioConfig where
  baseUrl : String
  tenantKey : String
  appVersion : Option String
deriving DecidableEq, Repr

/-- The constructed client state: the `AsqioClient` constructor stores the
base URL with trailing slashes stripped once, plus the tenant key and
optional app version. -/
structure AsqioClient where
  baseUrl : String
  tenantKey : String
  appVersion : Option String
deriving DecidableEq, Repr

/-- Embedding of the `AsqioClient` constructor. -/
def AsqioClient.ofConfig (cfg : AsqioConfig) : AsqioClient :=
  { baseUrl := stripTrailingSlashes cfg.baseUrl
    tenantKey := cfg.tenantKey
    appVersion := cfg.appVersion }

/-- URL built inside `request`: `${this.baseUrl}${path}`. -/
def AsqioClient.requestUrl (c : AsqioClient) (path : String) : String :=
  c.baseUrl ++ path

/-- Pagination parameters `{page?, per_page?}`; `none` models a key that is
absent or nullish (the source guards each key with `!= null`). -/
structure PaginationParams where
  page : Option Nat
  per_page : Option Nat
deriving DecidableEq, Repr

/-- Serialization of `URLSearchParams.toString`: the `key=value` entries in
insertion order joined by ampersands. -/
def joinAmp : List String → String
  | [] => ""
  | [x] => x
  | x :: xs => x ++ "&" ++ joinAmp xs

/-- Embedding of the private `AsqioClient.buildQuery`: insert `page` then
`per_page` into the search parameters only when non-nullish, and prefix the
serialized string with a question mark only when it is non-empty. -/
def buildQuery (params : Option PaginationParams) : String :=
  match params with
  | none => ""
  | some p =>
    let l1 := match p.page with
      | some n => ["page=" ++ toString n]
      | none => []
    let l2 := match p.per_page with
      | some n => ["per_page=" ++ toString n]
      | none => []
    let qs := joinAmp (l1 ++ l2)
    if qs = "" then "" else "?" ++ qs

example : buildQuery (some ⟨some 2, some 10⟩) = "?page=2&per_page=10" := by decide
example : buildQuery (some ⟨none, none⟩) = "" := by decide
example : buildQuery none = "" := by decide
example : buildQuery (some ⟨none, some 5⟩) = "?per_page=5" := by decide

/-- An optional JavaScript value distinguishing a key that is absent
(`undefined`), a key explicitly set to `null`, and a present value; the
distinction matters because a nullish-coalescing merge treats the first two
alike. -/
inductive JsOpt (α : Type) where
  | absent
  | nul
  | val (a : α)
deriving DecidableEq, Repr

/-- The nullish-coalescing operator `x ?? d`. -/
def JsOpt.coalesce {α : Type} : JsOpt α → α → α
  | .val a, _ => a
  | _, d => d

/-- Coalescing into an optional default, for `params.app_version ??
this.appVersion` where the configured app version may itself be absent. -/
def JsOpt.coalesceOpt {α : Type} : JsOpt α → Option α → Option α
  | .val a, _ => some a
  | _, d => d

/-- The `CreateTicketParams` fields that participate in the auto-fill
merge, each tri-state, plus the mandatory message. -/
structure CreateTicketParams where
  message : String
  platform : JsOpt String
  os_version : JsOpt String
  device_model : JsOpt String
  locale : JsOpt String
  timezone : JsOpt String
  app_version : JsOpt String
deriving DecidableEq, Repr

/-- The request body `createTicket` serializes: after the spread of
`params`, each device field and `app_version` is written again with its
coalesced value, so the final object holds exactly these values
(`app_version` stays optional because `undefined` properties are dropped by
`JSON.stringify`). -/
structure TicketBody where
  message : String
  platform : String
  os_version : String
  device_model : String
  locale : String
  timezone : String
  app_version : Option String
deriving DecidableEq, Repr

/-- Embedding of the body construction in `AsqioClient.createTicket`: probe
the device info, then merge `{...params, field: params.field ??
deviceInfo.field, app_version: params.app_version ?? this.appVersion}`. -/
def AsqioClient.createTicketBody (c : AsqioClient) (env : NavigatorEnv)
    (params : CreateTicketParams) : TicketBody :=
  let deviceInfo := detectDeviceInfo env
  { message := params.message
    platform := params.platform.coalesce deviceInfo.platform
    os_version := params.os_version.coalesce deviceInfo.os_version
    device_model := params.device_model.coalesce deviceInfo.device_model
    locale := params.locale.coalesce deviceInfo.locale
    timezone := params.timezone.coalesce deviceInfo.timezone
    app_version := params.app_version.coalesceOpt c.appVersion }

/-- A topic record: identifier and display name. -/
structure Topic where
  id : String
  name : String
deriving DecidableEq, Repr

/-- The error value a hook stores: either the thrown `Error` instance
unchanged, or a fresh `Error` wrapping `String(e)` when the thrown value
was not an `Error` instance. -/
inductive HookError where
  | err (t : Thrown)
  | wrapped (message : String)
deriving DecidableEq, Repr

/-- Embedding of `e instanceof Error ? e : new Error(String(e))` from the
catch block of `useTopics`. -/
def normalizeErr : Thrown → HookError
  | .str s => .wrapped s
  | e => .err e

/-- Observable state of the `useTopics` hook. -/
structure TopicsState where
  topics : List Topic
  loading : Bool
  error : Option HookError
deriving DecidableEq, Repr

/-- Initial state of `useTopics`: `useState<Topic[]>([])`,
`useState(true)`, `useState<Error | null>(null)`. -/
def initialTopicsState : TopicsState :=
  { topics := [], loading := true, error := none }

/-- One state-setter call performed by `fetchTopics`. -/
inductive TopicsEv where
  | setLoading (b : Bool)
  | setError (e : Option HookError)
  | setTopics (ts : List Topic)
deriving DecidableEq, Repr

/-- The exact sequence of state-setter calls one `fetchTopics` run performs,
driven by the settlement of `client.getTopics()`: set loading true, clear
the error, then either store the result or store the normalized error, and
finally (in the `finally` block) set loading false. -/
def fetchTopicsEvents (outcome : Except Thrown (List Topic)) : List TopicsEv :=
  [.setLoading true, .setError none] ++
    (match outcome with
      | .ok result => [.setTopics result]
      | .error e => [.setError (some (normalizeErr e))]) ++
    [.setLoading false]

/-- Apply one state-setter call to the hook state. -/
def applyTopicsEv (s : TopicsState) : TopicsEv → TopicsState
  | .setLoading b => { s with loading := b }
  | .setError e => { s with error := e }
  | .setTopics ts => { s with topics := ts }

/-- The state after one `fetchTopics` run (mount or explicit refetch)
settles. -/
def runFetchTopics (s : TopicsState) (outcome : Except Thrown (List Topic)) : TopicsState :=
  (fetchTopicsEvents outcome).foldl applyTopicsEv s

/-- How many times a `fetchTopics` run sets the loading flag to false. -/
def countLoadingFalse (evs : List TopicsEv) : Nat :=
  (evs.filter (fun ev => match ev with | .setLoading false => true | _ => false)).length

example :
    runFetchTopics initialTopicsState (.ok [⟨"topic-1", "Billing"⟩]) =
      { topics := [⟨"topic-1", "Billing"⟩], loading := false, error := none } := by decide

/-! ## Helper lemmas -/

/-- Dropping the leading run of `p`-satisfying elements leaves a list whose
leading run for `p` is empty. -/
lemma takeWhile_dropWhile_eq_nil (p : Char → Bool) (l : List Char) :
    (l.dropWhile p).takeWhile p = [] := by
  induction l with
  | nil => rfl
  | cons a as ih =>
    by_cases h : p a
    · simp [List.dropWhile_cons, h, ih]
    · simp [List.dropWhile_cons, List.takeWhile_cons, h]

/-- A string with a nonempty prefix glued in front is never empty. -/
lemma append_ne_empty (s t : String) (h : s.length ≠ 0) : s ++ t ≠ "" := by
  intro hh
  have h2 := congrArg String.length hh
  rw [String.length_append, show ("" : String).length = 0 from rfl] at h2
  omega

/-- Strings starting with the Edge label and the Chrome label differ. -/
lemma edge_ne_chrome (x y : String) : ("Edge " ++ x) ≠ ("Chrome " ++ y) := by
  intro h
  have h2 := congrArg String.data h
  rw [String.data_append, String.data_append,
    show "Edge ".data = ['E', 'd', 'g', 'e', ' '] from rfl,
    show "Chrome ".data = ['C', 'h', 'r', 'o', 'm', 'e', ' '] from rfl] at h2
  simp only [List.cons_append] at h2
  injection h2 with h3 _
  exact absurd h3 (by decide)

/-! ## Claims -/

/-- C1: for every client operation, the token is resolved through the
configured asynchronous provider before anything else; if that resolution
rejects with any value `e`, the operation rejects with a transport failure
whose message is "Failed to retrieve auth token" and whose cause is `e`,
and the injected fetch primitive is never invoked (every public operation
delegates to `request`, so the statement quantifies over the whole fetch
environment). -/
theorem c1_token_failure_short_circuits (e : Thrown) (fetchResult : Except Thrown Resp) :
    request (.error e) fetchResult =
      ⟨.error (.transportFailure "Failed to retrieve auth token" e), false, false⟩ := rfl

/-- C4: for every response whose status is 204, the operation resolves with
the undefined result (`Except.ok none`) and the JSON-body reader is never
invoked, whatever the `ok` flag and whatever the reader would have done. -/
theorem c4_no_content_resolves_undefined (tok : String) (resp : Resp)
    (h : resp.status = 204) :
    request (.ok tok) (.ok resp) = ⟨.ok none, true, false⟩ := by
  simp [request, h]

/-- Witness for C4 at a concrete 204 response whose body reader would
reject if it were ever invoked. -/
theorem c4_no_content_resolves_undefined_witness :
    request (.ok "tok") (.ok ⟨true, 204, .error (.jsError "Error" "No content")⟩) =
      ⟨.ok none, true, false⟩ :=
  c4_no_content_resolves_undefined "tok" ⟨true, 204, .error (.jsError "Error" "No content")⟩ rfl

/-- C2: for every non-ok, non-204 response, the operation rejects with a
server-rejection failure whose message is the error field of the parsed
body when present, else the synthesized "Request failed with status"
string; whose code is the code field when present, else
INTERNAL_SERVER_ERROR; and whose statusCode is the numeric status — and a
body whose reader rejects never surfaces that secondary error, taking the
fully synthesized path instead. All five field-presence scenarios are
covered. -/
theorem c2_server_rejection_translation (tok : String) (status : Nat)
    (h204 : status ≠ 204) (m c : String) (j : Thrown) :
    request (.ok tok) (.ok ⟨false, status, .ok ⟨some m, some c⟩⟩) =
      ⟨.error (.serverRejection m c status), true, true⟩ ∧
    request (.ok tok) (.ok ⟨false, status, .ok ⟨some m, none⟩⟩) =
      ⟨.error (.serverRejection m "INTERNAL_SERVER_ERROR" status), true, true⟩ ∧
    request (.ok tok) (.ok ⟨false, status, .ok ⟨none, some c⟩⟩) =
      ⟨.error (.serverRejection ("Request failed with status " ++ toString status)
        c status), true, true⟩ ∧
    request (.ok tok) (.ok ⟨false, status, .ok ⟨none, none⟩⟩) =
      ⟨.error (.serverRejection ("Request failed with status " ++ toString status)
        "INTERNAL_SERVER_ERROR" status), true, true⟩ ∧
    request (.ok tok) (.ok ⟨false, status, .error j⟩) =
      ⟨.error (.serverRejection ("Request failed with status " ++ toString status)
        "INTERNAL_SERVER_ERROR" status), true, true⟩ := by
  refine ⟨?_, ?_, ?_, ?_, ?_⟩ <;> simp [request, h204]

/-- Witness for C2: the specification scenario of a 422 response with a
valid `{error, code}` body, and a 500 response whose body reader rejects
with a syntax error. -/
theorem c2_server_rejection_translation_witness :
    request (.ok "tok") (.ok ⟨false, 422, .ok ⟨some "Invalid record", some "UNPROCESSABLE_ENTITY"⟩⟩) =
      ⟨.error (.serverRejection "Invalid record" "UNPROCESSABLE_ENTITY" 422), true, true⟩ ∧
    request (.ok "tok") (.ok ⟨false, 500, .error (.jsError "SyntaxError" "Unexpected token")⟩) =
      ⟨.error (.serverRejection "Request failed with status 500" "INTERNAL_SERVER_ERROR" 500),
        true, true⟩ := by
  have h1 := (c2_server_rejection_translation "tok" 422 (by decide) "Invalid record"
    "UNPROCESSABLE_ENTITY" (.str "")).1
  have h2 := (c2_server_rejection_translation "tok" 500 (by decide) "" ""
    (.jsError "SyntaxError" "Unexpected token")).2.2.2.2
  exact ⟨h1, h2⟩

/-- C3 counterexample: the claim also asserts that the cause stored in a
transport failure is never a server-rejection failure, but the code wraps
whatever value the injected fetch primitive throws without inspecting it;
when that thrown value is itself an `AsqioError` (server-rejection shape),
it is stored verbatim as the cause. -/
theorem c3_cause_counterexample :
    request (.ok "tok") (.error (.serverRejection "declined" "FORBIDDEN" 403)) =
      ⟨.error (.transportFailure "Network request failed"
        (.serverRejection "declined" "FORBIDDEN" 403)), true, false⟩ ∧
    Thrown.isServerRejection (.serverRejection "declined" "FORBIDDEN" 403) = true :=
  ⟨rfl, rfl⟩

/-- C3 amended: when the injected fetch primitive itself throws `e`, the
operation rejects with a transport failure whose message is
"Network request failed" and whose cause is exactly `e`; the produced
failure itself is never a server-rejection failure. The client never turns
its own server rejection into a cause, but it preserves whatever the
primitive threw — including a server-rejection-shaped value — verbatim. -/
theorem c3_fetch_throw_transport_failure (tok : String) (e : Thrown) :
    request (.ok tok) (.error e) =
      ⟨.error (.transportFailure "Network request failed" e), true, false⟩ ∧
    (∀ m c s, (request (.ok tok) (.error e)).outcome ≠
      .error (.serverRejection m c s)) := by
  refine ⟨rfl, ?_⟩
  intro m c s h
  exact Thrown.noConfusion (Except.error.inj h)

/-- C5: for every combination of pagination parameters, the built query
string contains exactly the supplied keys, in page-then-per_page order,
and is the empty string (no question mark) when the params object is
absent or both keys are nullish. -/
theorem c5_build_query_combinations (a b : Nat) :
    buildQuery none = "" ∧
    buildQuery (some ⟨none, none⟩) = "" ∧
    buildQuery (some ⟨some a, none⟩) = "?page=" ++ toString a ∧
    buildQuery (some ⟨none, some b⟩) = "?per_page=" ++ toString b ∧
    buildQuery (some ⟨some a, some b⟩) =
      "?" ++ ("page=" ++ toString a) ++ "&" ++ ("per_page=" ++ toString b) := by
  refine ⟨rfl, rfl, ?_, ?_, ?_⟩
  · show (if ("page=" ++ toString a) = "" then "" else "?" ++ ("page=" ++ toString a)) = _
    rw [if_neg (append_ne_empty "page=" (toString a) (by decide)), ← String.append_assoc]
    exact congrArg (fun s => s ++ toString a) (rfl : ("?" ++ "page=" : String) = "?page=")
  · show (if ("per_page=" ++ toString b) = "" then "" else "?" ++ ("per_page=" ++ toString b)) = _
    rw [if_neg (append_ne_empty "per_page=" (toString b) (by decide)), ← String.append_assoc]
    exact congrArg (fun s => s ++ toString b) (rfl : ("?" ++ "per_page=" : String) = "?per_page=")
  · show (if ("page=" ++ toString a) ++ "&" ++ ("per_page=" ++ toString b) = ""
        then "" else "?" ++ (("page=" ++ toString a) ++ "&" ++ ("per_page=" ++ toString b))) = _
    rw [show ("page=" ++ toString a) ++ "&" ++ ("per_page=" ++ toString b) =
      "page=" ++ (toString a ++ ("&" ++ ("per_page=" ++ toString b))) by
        simp [String.append_assoc]]
    rw [if_neg (append_ne_empty "page=" (toString a ++ ("&" ++ ("per_page=" ++ toString b)))
      (by decide))]
    simp [String.append_assoc]

/-- C6: the configured endpoint base has its trailing slashes stripped once
at construction, so the stored base never ends in a slash and, for every
operation path that starts with exactly one slash (as every path the client
builds does), the built URL has exactly one separator at the junction of
base and path. -/
theorem c6_single_junction_separator (cfg : AsqioConfig) (path : String)
    (h : leadingSlashRun path = 1) :
    (AsqioClient.ofConfig cfg).baseUrl = stripTrailingSlashes cfg.baseUrl ∧
    trailingSlashRun (AsqioClient.ofConfig cfg).baseUrl = 0 ∧
    junctionSlashRun (AsqioClient.ofConfig cfg).baseUrl path = 1 ∧
    (AsqioClient.ofConfig cfg).requestUrl path = stripTrailingSlashes cfg.baseUrl ++ path := by
  have h0 : trailingSlashRun (stripTrailingSlashes cfg.baseUrl) = 0 := by
    simp only [trailingSlashRun, stripTrailingSlashes, List.reverse_reverse]
    rw [takeWhile_dropWhile_eq_nil]
    rfl
  refine ⟨rfl, h0, ?_, rfl⟩
  show trailingSlashRun (AsqioClient.ofConfig cfg).baseUrl + leadingSlashRun path = 1
  rw [show (AsqioClient.ofConfig cfg).baseUrl = stripTrailingSlashes cfg.baseUrl from rfl,
    h0, h]

/-- Witness for C6: a base URL carrying three trailing slashes and the
topics operation path. -/
theorem c6_single_junction_separator_witness :
    (AsqioClient.ofConfig ⟨"https://api.example.com/api/v1///", "tenant", none⟩).baseUrl =
      stripTrailingSlashes "https://api.example.com/api/v1///" ∧
    trailingSlashRun (AsqioClient.ofConfig
      ⟨"https://api.example.com/api/v1///", "tenant", none⟩).baseUrl = 0 ∧
    junctionSlashRun (AsqioClient.ofConfig
      ⟨"https://api.example.com/api/v1///", "tenant", none⟩).baseUrl "/topics" = 1 ∧
    (AsqioClient.ofConfig ⟨"https://api.example.com/api/v1///", "tenant", none⟩).requestUrl
      "/topics" = stripTrailingSlashes "https://api.example.com/api/v1///" ++ "/topics" :=
  c6_single_junction_separator ⟨"https://api.example.com/api/v1///", "tenant", none⟩
    "/topics" (by decide)

/-- C7: in the body built by `createTicket`, each device field equals the
explicitly supplied caller value when one was given, and exactly equals the
corresponding field of the fingerprint probe output for the current
environment when the field was omitted; `app_version` likewise prefers the
caller value and falls back to the configured application version. -/
theorem c7_create_ticket_autofill (c : AsqioClient) (env : NavigatorEnv)
    (p : CreateTicketParams) :
    (∀ v, p.platform = .val v → (c.createTicketBody env p).platform = v) ∧
    (p.platform = .absent →
      (c.createTicketBody env p).platform = (detectDeviceInfo env).platform) ∧
    (∀ v, p.os_version = .val v → (c.createTicketBody env p).os_version = v) ∧
    (p.os_version = .absent →
      (c.createTicketBody env p).os_version = (detectDeviceInfo env).os_version) ∧
    (∀ v, p.device_model = .val v → (c.createTicketBody env p).device_model = v) ∧
    (p.device_model = .absent →
      (c.createTicketBody env p).device_model = (detectDeviceInfo env).device_model) ∧
    (∀ v, p.locale = .val v → (c.createTicketBody env p).locale = v) ∧
    (p.locale = .absent →
      (c.createTicketBody env p).locale = (detectDeviceInfo env).locale) ∧
    (∀ v, p.timezone = .val v → (c.createTicketBody env p).timezone = v) ∧
    (p.timezone = .absent →
      (c.createTicketBody env p).timezone = (detectDeviceInfo env).timezone) ∧
    (∀ v, p.app_version = .val v → (c.createTicketBody env p).app_version = some v) ∧
    (p.app_version = .absent → (c.createTicketBody env p).app_version = c.appVersion) := by
  refine ⟨?_, ?_, ?_, ?_, ?_, ?_, ?_, ?_, ?_, ?_, ?_, ?_⟩ <;>
    intro h <;>
    first
    | (intro hv
       simp [AsqioClient.createTicketBody, JsOpt.coalesce, JsOpt.coalesceOpt, hv])
    | simp [AsqioClient.createTicketBody, JsOpt.coalesce, JsOpt.coalesceOpt, h]

/-- Witness for C7: a client configured with app version 2.0.0 and a call
supplying explicit platform and locale while omitting the other fields. -/
theorem c7_create_ticket_autofill_witness :
    ((AsqioClient.ofConfig ⟨"https://api.example.com", "tenant", some "2.0.0"⟩).createTicketBody
      ⟨true, "Mozilla/5.0 (Windows NT 10.0; Win64; x64) Chrome/120.0.0.0", "en-US", "Asia/Tokyo"⟩
      ⟨"Hello", .val "ios", .absent, .absent, .val "ja-JP", .absent, .absent⟩).platform = "ios" ∧
    ((AsqioClient.ofConfig ⟨"https://api.example.com", "tenant", some "2.0.0"⟩).createTicketBody
      ⟨true, "Mozilla/5.0 (Windows NT 10.0; Win64; x64) Chrome/120.0.0.0", "en-US", "Asia/Tokyo"⟩
      ⟨"Hello", .val "ios", .absent, .absent, .val "ja-JP", .absent, .absent⟩).os_version =
      (detectDeviceInfo ⟨true, "Mozilla/5.0 (Windows NT 10.0; Win64; x64) Chrome/120.0.0.0",
        "en-US", "Asia/Tokyo"⟩).os_version ∧
    ((AsqioClient.ofConfig ⟨"https://api.example.com", "tenant", some "2.0.0"⟩).createTicketBody
      ⟨true, "Mozilla/5.0 (Windows NT 10.0; Win64; x64) Chrome/120.0.0.0", "en-US", "Asia/Tokyo"⟩
      ⟨"Hello", .val "ios", .absent, .absent, .val "ja-JP", .absent, .absent⟩).locale = "ja-JP" ∧
    ((AsqioClient.ofConfig ⟨"https://api.example.com", "tenant", some "2.0.0"⟩).createTicketBody
      ⟨true, "Mozilla/5.0 (Windows NT 10.0; Win64; x64) Chrome/120.0.0.0", "en-US", "Asia/Tokyo"⟩
      ⟨"Hello", .val "ios", .absent, .absent, .val "ja-JP", .absent, .absent⟩).app_version =
      some "2.0.0" := by
  have h := c7_create_ticket_autofill
    (AsqioClient.ofConfig ⟨"https://api.example.com", "tenant", some "2.0.0"⟩)
    ⟨true, "Mozilla/5.0 (Windows NT 10.0; Win64; x64) Chrome/120.0.0.0", "en-US", "Asia/Tokyo"⟩
    ⟨"Hello", .val "ios", .absent, .absent, .val "ja-JP", .absent, .absent⟩
  exact ⟨h.1 "ios" rfl, h.2.2.2.1 rfl, h.2.2.2.2.2.2.1 "ja-JP" rfl,
    h.2.2.2.2.2.2.2.2.2.2.2 rfl⟩

/-- C10: supplying a device field or `app_version` explicitly as null
behaves exactly as omitting it — the nullish-coalescing merge replaces the
null with the auto-detected (or configured) value, so a null is never sent
to the server. -/
theorem c10_null_behaves_as_omitted (c : AsqioClient) (env : NavigatorEnv)
    (p : CreateTicketParams) :
    c.createTicketBody env { p with platform := .nul } =
      c.createTicketBody env { p with platform := .absent } ∧
    (c.createTicketBody env { p with platform := .nul }).platform =
      (detectDeviceInfo env).platform ∧
    c.createTicketBody env { p with os_version := .nul } =
      c.createTicketBody env { p with os_version := .absent } ∧
    (c.createTicketBody env { p with os_version := .nul }).os_version =
      (detectDeviceInfo env).os_version ∧
    c.createTicketBody env { p with device_model := .nul } =
      c.createTicketBody env { p with device_model := .absent } ∧
    (c.createTicketBody env { p with device_model := .nul }).device_model =
      (detectDeviceInfo env).device_model ∧
    c.createTicketBody env { p with locale := .nul } =
      c.createTicketBody env { p with locale := .absent } ∧
    (c.createTicketBody env { p with locale := .nul }).locale =
      (detectDeviceInfo env).locale ∧
    c.createTicketBody env { p with timezone := .nul } =
      c.createTicketBody env { p with timezone := .absent } ∧
    (c.createTicketBody env { p with timezone := .nul }).timezone =
      (detectDeviceInfo env).timezone ∧
    c.createTicketBody env { p with app_version := .nul } =
      c.createTicketBody env { p with app_version := .absent } ∧
    (c.createTicketBody env { p with app_version := .nul }).app_version = c.appVersion :=
  ⟨rfl, rfl, rfl, rfl, rfl, rfl, rfl, rfl, rfl, rfl, rfl, rfl⟩

/-- C9 counterexample: after a successful load of one topic, a failing
refetch settles with the error stored and loading false, but the stored
topics list is NOT reset to its empty representation — it still holds the
previously fetched topic (the catch block of `useTopics` only calls
setError). -/
theorem c9_topics_not_reset_counterexample :
    runFetchTopics (runFetchTopics initialTopicsState (.ok [⟨"topic-1", "Billing"⟩]))
        (.error (.jsError "Error" "Network error")) =
      { topics := [⟨"topic-1", "Billing"⟩], loading := false,
        error := some (.err (.jsError "Error" "Network error")) } ∧
    ([(⟨"topic-1", "Billing"⟩ : Topic)] : List Topic) ≠ [] :=
  ⟨rfl, by decide⟩

/-- C9 amended: for every fetch of the topics hook (mount or refetch) whose
client operation fails, at settlement the error state holds the normalized
failure and the loading flag is set to false exactly once, while the stored
topics list is left unchanged — so it is empty only when no fetch has yet
succeeded (for example on an initial-mount failure). -/
theorem c9_failure_settlement (s : TopicsState) (e : Thrown) :
    runFetchTopics s (.error e) =
      { topics := s.topics, loading := false, error := some (normalizeErr e) } ∧
    countLoadingFalse (fetchTopicsEvents (.error e)) = 1 :=
  ⟨rfl, rfl⟩

/-- C8: browser detection follows the fixed priority order of the source —
an Edg signature wins even when a Chrome signature is also present (so the
result is the Edge string and never the Chrome string); a Safari signature
is only honored when the Chrome substring is absent, otherwise the raw
fallback is used; an unmatched non-empty user agent is returned raw; and
the empty string yields "Unknown". -/
theorem c8_browser_priority :
    (∀ (ua : String) (v w : List Char),
      matchCapture "Edg/".data isDigitDot ua.data = some v →
      matchCapture "Chrome/".data isDigitDot ua.data = some w →
      detectBrowser ua = "Edge " ++ String.mk v ∧
        detectBrowser ua ≠ "Chrome " ++ String.mk w) ∧
    (∀ (ua : String) (v : List Char),
      matchCapture "Edg/".data isDigitDot ua.data = none →
      matchCapture "Chrome/".data isDigitDot ua.data = none →
      matchCapture "Firefox/".data isDigitDot ua.data = none →
      matchCapture "Safari/".data isDigitDot ua.data = some v →
      containsSub "Chrome".data ua.data = true →
      detectBrowser ua = (if ua = "" then "Unknown" else ua)) ∧
    (∀ (ua : String),
      matchCapture "Edg/".data isDigitDot ua.data = none →
      matchCapture "Chrome/".data isDigitDot ua.data = none →
      matchCapture "Firefox/".data isDigitDot ua.data = none →
      matchCapture "Safari/".data isDigitDot ua.data = none →
      ua ≠ "" → detectBrowser ua = ua) ∧
    detectBrowser "" = "Unknown" := by
  refine ⟨?_, ?_, ?_, rfl⟩
  · intro ua v w h1 _h2
    have hd : detectBrowser ua = "Edge " ++ String.mk v := by
      simp [detectBrowser, h1]
    exact ⟨hd, fun hh => edge_ne_chrome (String.mk v) (String.mk w) (hd.symm.trans hh)⟩
  · intro ua v h1 h2 h3 h4 hc
    simp [detectBrowser, h1, h2, h3, h4, hc]
  · intro ua h1 h2 h3 h4 hne
    simp [detectBrowser, h1, h2, h3, h4, hne]

/-- Witness for C8: a user agent carrying both Chrome and Edg tokens is
detected as Edge, and the empty string is detected as "Unknown". -/
theorem c8_browser_priority_witness :
    detectBrowser "Chrome/120.0.0.0 Safari/537.36 Edg/120.0.2210.91" = "Edge 120.0.2210.91" ∧
    detectBrowser "" = "Unknown" := by
  have h := (c8_browser_priority.1 "Chrome/120.0.0.0 Safari/537.36 Edg/120.0.2210.91"
    "120.0.2210.91".data "120.0.0.0".data (by decide) (by decide)).1
  exact ⟨h, c8_browser_priority.2.2.2⟩
